import Mathlib

/-!
Verification of the `thesis` experiment library.

Shallow embedding of `src/rollout.rs`, `src/experiment.rs` and the
`mismatch` module. An asynchronous computation (Rust `Future`) is embedded
as the value it yields on await together with the list of side effects
observed while it runs (`Fut`). The observability sink (the `metrics`
counters) is embedded as a list of `Signal` values produced by an
execution; trace spans are out of scope. The random draw made by
`rand::thread_rng().gen::<f64>()` (uniform in [0,1)) is passed as an
explicit rational argument to `rollout_decision`, and `f64` arithmetic is
embedded as exact rational arithmetic. `run`/`run_result` return an
`Option` because their `match` on the rollout decision has no arm for
`UseExperimental`.
-/

namespace Thesis

/-- From src/rollout.rs: `pub enum RolloutDecision`, a decision of if the
control or experimental methods should be used. -/
inductive RolloutDecision where
  | UseControl
  | UseExperimentalAndCompare
  | UseExperimental
deriving DecidableEq, Repr

/-- From src/rollout.rs: `pub trait RolloutStrategy`, a method for chosing if
the control or experimental code should run. The rational argument is the
fresh uniform random draw in [0,1) available to the implementation (the Rust
method obtains it internally from `rand::thread_rng()`; pure implementations
ignore it). -/
class RolloutStrategy (R : Type) where
  rollout_decision : R → ℚ → RolloutDecision

/-- From src/rollout.rs: `impl RolloutStrategy for RolloutDecision`, returning
`*self`. -/
instance : RolloutStrategy RolloutDecision where
  rollout_decision d _ := d

/-- From src/rollout.rs: `pub struct Percent(f64)`, holding the stored
probability (the constructor argument divided by 100). -/
structure Percent where
  prob : ℚ

/-- From src/rollout.rs: `Percent::new(percent)` stores `percent / 100.0`
with no validation or clamping. -/
def Percent.new (percent : ℚ) : Percent :=
  ⟨percent / 100⟩

/-- From src/rollout.rs: `impl RolloutStrategy for Percent`: draw `r`
uniformly in [0,1); if `r < self.0` return `UseExperimentalAndCompare`,
else `UseControl`. -/
instance : RolloutStrategy Percent where
  rollout_decision s r :=
    if r < s.prob then RolloutDecision.UseExperimentalAndCompare
    else RolloutDecision.UseControl

/-- Modelled from the spec: the `Mismatch` pair of the `mismatch` module
(absent from src/): two fields, `control` and `experimental`, holding the
two outputs when they disagree; field names as constructed in
src/experiment.rs. -/
structure Mismatch (T : Type) where
  control : T
  experimental : T
deriving DecidableEq, Repr

/-- Modelled from the spec: the `MismatchHandler` capability of the
`mismatch` module (absent from src/): a single operation mapping one
`Mismatch T` to one reconciled `T`. -/
class MismatchHandler (M : Type) (T : Type) where
  on_mismatch : M → Mismatch T → T

/-- Modelled from the spec: `AlwaysControl`, the canonical default handler
of the `mismatch` module (absent from src/), which always prefers the
control value. -/
inductive AlwaysControl where
  | mk
deriving DecidableEq, Repr

instance {T : Type} : MismatchHandler AlwaysControl T where
  on_mismatch _ m := m.control

/-- Modelled from the spec: `FnTrait`, the adapter of the `mismatch` module
(absent from src/) wrapping a one-shot caller-supplied function into the
`MismatchHandler` capability. -/
structure FnTrait (F : Type) where
  f : F

instance {T : Type} : MismatchHandler (FnTrait (Mismatch T → T)) T where
  on_mismatch w m := w.f m

/-- Embedding of a Rust `Future`: the value it yields when awaited and the
side effects observed while it runs. -/
structure Fut (α : Type) where
  value : α
  effects : List String
deriving DecidableEq, Repr

/-- From src/experiment.rs: `pub struct Experiment<T, C, E, R, M>`. The
`result_type: PhantomData<T>` field carries no data and is dropped; `T`
remains a parameter of the type. -/
structure Experiment (T C E R M : Type) where
  control_builder : C
  experimental_builder : E
  rollout_strategy : R
  mismatch_handler : M
  name : String

/-- From src/experiment.rs: `Experiment::new(name)`, with control,
experimental and rollout strategy unset and the mismatch handler defaulted
to `AlwaysControl`. -/
def Experiment.new (T : Type) (name : String) :
    Experiment T Unit Unit Unit AlwaysControl :=
  { name := name
    control_builder := ()
    experimental_builder := ()
    mismatch_handler := AlwaysControl.mk
    rollout_strategy := () }

/-- From src/experiment.rs: builder method `control`, replacing the control
computation and carrying every other stage over. -/
def Experiment.control {T C E R M NC : Type} (self : Experiment T C E R M)
    (control_builder : NC) : Experiment T NC E R M :=
  { control_builder := control_builder
    name := self.name
    experimental_builder := self.experimental_builder
    rollout_strategy := self.rollout_strategy
    mismatch_handler := self.mismatch_handler }

/-- From src/experiment.rs: builder method `experimental`, replacing the
experimental computation and carrying every other stage over. -/
def Experiment.experimental {T C E R M NE : Type} (self : Experiment T C E R M)
    (experimental_builder : NE) : Experiment T C NE R M :=
  { experimental_builder := experimental_builder
    name := self.name
    control_builder := self.control_builder
    rollout_strategy := self.rollout_strategy
    mismatch_handler := self.mismatch_handler }

/-- From src/experiment.rs: builder method `rollout_strategy` (primed here
because the structure projection takes the source name), replacing the
rollout strategy and carrying every other stage over. -/
def Experiment.rollout_strategy' {T C E R M NR : Type} (self : Experiment T C E R M)
    (rollout_strategy : NR) : Experiment T C E NR M :=
  { rollout_strategy := rollout_strategy
    name := self.name
    control_builder := self.control_builder
    experimental_builder := self.experimental_builder
    mismatch_handler := self.mismatch_handler }

/-- From src/experiment.rs: builder method `on_mismatch`, wrapping the
caller-supplied function in `FnTrait` and carrying every other stage over. -/
def Experiment.on_mismatch {T C E R M NM : Type} (self : Experiment T C E R M)
    (on_mismatch : NM) : Experiment T C E R (FnTrait NM) :=
  { mismatch_handler := FnTrait.mk on_mismatch
    name := self.name
    rollout_strategy := self.rollout_strategy
    control_builder := self.control_builder
    experimental_builder := self.experimental_builder }

/-- Embedding of the observability sink: one constructor per `counter!`
call site in src/experiment.rs (the accompanying `tracing` span/log calls
are part of the same sink and not separately modelled). -/
inductive Signal where
  | runTotal (name : String)
  | runVariant (name kind : String)
  | outcomeOk (name kind : String)
  | outcomeError (name kind : String)
  | outcomeMismatch (name : String)
deriving DecidableEq, Repr

/-- From src/experiment.rs: `fn outcome_ok`. -/
def outcome_ok (name kind : String) : List Signal :=
  [Signal.outcomeOk name kind]

/-- From src/experiment.rs: `fn outcome_error` (the logged error text is
part of the unmodelled trace log). -/
def outcome_error (name kind : String) : List Signal :=
  [Signal.outcomeError name kind]

/-- From src/experiment.rs: `fn outcome_mismatch`, emitted with
`kind = "experimental_and_compare"`. -/
def outcome_mismatch (name : String) : List Signal :=
  [Signal.outcomeMismatch name]

/-- Embedding of Rust `Result<T, Err>`. -/
inductive Result (T Err : Type) where
  | Ok (val : T)
  | Err (err : Err)
deriving DecidableEq, Repr

/-- From src/experiment.rs: `fn outcome`, dispatching on the result. -/
def outcome {T Err : Type} (name kind : String) :
    Result T Err → List Signal
  | Result.Ok _ => outcome_ok name kind
  | Result.Err _ => outcome_error name kind

/-- The observable outcome of one execution of `run`/`run_result`: the
returned value, the signals emitted to the observability sink, the side
effects of the computations that were awaited, and the arguments of every
mismatch-handler invocation, in order. -/
structure RunOutput (T : Type) where
  result : T
  signals : List Signal
  effects : List String
  handlerCalls : List (Mismatch T)
deriving DecidableEq, Repr

/-- From src/experiment.rs: `Experiment::run`. The rational argument is the
fresh random draw consumed by the rollout strategy. The source `match` has
no arm for `UseExperimental`, hence the `Option`. -/
def Experiment.run {T R M : Type} [DecidableEq T] [RolloutStrategy R]
    [MismatchHandler M T]
    (self : Experiment T (Fut T) (Fut T) R M) (r : ℚ) :
    Option (RunOutput T) :=
  let base := [Signal.runTotal self.name]
  match RolloutStrategy.rollout_decision self.rollout_strategy r with
  | RolloutDecision.UseControl =>
      some { result := self.control_builder.value
             signals := base ++ [Signal.runVariant self.name "control"]
             effects := self.control_builder.effects
             handlerCalls := [] }
  | RolloutDecision.UseExperimentalAndCompare =>
      let sigs := base ++ [Signal.runVariant self.name "experimental_and_compare"]
      let effects := self.control_builder.effects ++ self.experimental_builder.effects
      let control := self.control_builder.value
      let experimental := self.experimental_builder.value
      if control ≠ experimental then
        let m : Mismatch T := ⟨control, experimental⟩
        some { result := MismatchHandler.on_mismatch self.mismatch_handler m
               signals := sigs ++ outcome_mismatch self.name
               effects := effects
               handlerCalls := [m] }
      else
        some { result := control
               signals := sigs
               effects := effects
               handlerCalls := [] }
  | RolloutDecision.UseExperimental => none

/-- From src/experiment.rs: `Experiment::run_result`. The rational argument
is the fresh random draw consumed by the rollout strategy. The source
`match` has no arm for `UseExperimental`, hence the `Option`. -/
def Experiment.run_result {T Err R M : Type} [DecidableEq T] [RolloutStrategy R]
    [MismatchHandler M (Result T Err)]
    (self : Experiment (Result T Err) (Fut (Result T Err)) (Fut (Result T Err)) R M)
    (r : ℚ) : Option (RunOutput (Result T Err)) :=
  let base := [Signal.runTotal self.name]
  match RolloutStrategy.rollout_decision self.rollout_strategy r with
  | RolloutDecision.UseControl =>
      let result := self.control_builder.value
      some { result := result
             signals := base ++ [Signal.runVariant self.name "control"]
               ++ outcome self.name "control" result
             effects := self.control_builder.effects
             handlerCalls := [] }
  | RolloutDecision.UseExperimentalAndCompare =>
      let control := self.control_builder.value
      let experimental := self.experimental_builder.value
      let sigs := base ++ [Signal.runVariant self.name "experimental_and_compare"]
        ++ outcome self.name "control" control
        ++ outcome self.name "experimental" experimental
      let effects := self.control_builder.effects ++ self.experimental_builder.effects
      match control, experimental with
      | Result.Ok c, Result.Ok e =>
          if c ≠ e then
            let m : Mismatch (Result T Err) := ⟨Result.Ok c, Result.Ok e⟩
            some { result := MismatchHandler.on_mismatch self.mismatch_handler m
                   signals := sigs ++ outcome_mismatch self.name
                   effects := effects
                   handlerCalls := [m] }
          else
            some { result := Result.Ok c
                   signals := sigs
                   effects := effects
                   handlerCalls := [] }
      | Result.Ok c, Result.Err _ =>
          some { result := Result.Ok c
                 signals := sigs ++ outcome_mismatch self.name
                 effects := effects
                 handlerCalls := [] }
      | Result.Err c, Result.Ok e =>
          let m : Mismatch (Result T Err) := ⟨Result.Err c, Result.Ok e⟩
          some { result := MismatchHandler.on_mismatch self.mismatch_handler m
                 signals := sigs ++ outcome_mismatch self.name
                 effects := effects
                 handlerCalls := [m] }
      | Result.Err c, Result.Err _ =>
          some { result := Result.Err c
                 signals := sigs
                 effects := effects
                 handlerCalls := [] }
  | RolloutDecision.UseExperimental => none

theorem Percent.rollout_decision_def (s : Percent) (r : ℚ) :
    RolloutStrategy.rollout_decision s r =
      if r < s.prob then RolloutDecision.UseExperimentalAndCompare
      else RolloutDecision.UseControl := rfl

/-- C9: a `RolloutDecision` value itself implements the `RolloutStrategy`
capability as the identity: for every decision `d` (and every random draw),
`rollout_decision` on `d` returns `d`. -/
theorem rolloutDecision_strategy_identity :
    ∀ (d : RolloutDecision) (r : ℚ),
      RolloutStrategy.rollout_decision d r = d :=
  fun _ _ => rfl

/-- C8: `Experiment.new` produces a builder with control, experimental and
rollout strategy unset and the mismatch handler defaulted to
`AlwaysControl`; each builder method returns a new `Experiment` in which
only the corresponding stage is replaced (for `on_mismatch`, wrapped in
`FnTrait`) and the name and every other stage are carried over unchanged. -/
theorem builder_frame :
    (∀ (T : Type) (n : String),
      (Experiment.new T n).control_builder = () ∧
      (Experiment.new T n).experimental_builder = () ∧
      (Experiment.new T n).rollout_strategy = () ∧
      (Experiment.new T n).mismatch_handler = AlwaysControl.mk ∧
      (Experiment.new T n).name = n) ∧
    (∀ (T C E R M NC : Type) (e : Experiment T C E R M) (c : NC),
      (e.control c).control_builder = c ∧
      (e.control c).experimental_builder = e.experimental_builder ∧
      (e.control c).rollout_strategy = e.rollout_strategy ∧
      (e.control c).mismatch_handler = e.mismatch_handler ∧
      (e.control c).name = e.name) ∧
    (∀ (T C E R M NE : Type) (e : Experiment T C E R M) (x : NE),
      (e.experimental x).experimental_builder = x ∧
      (e.experimental x).control_builder = e.control_builder ∧
      (e.experimental x).rollout_strategy = e.rollout_strategy ∧
      (e.experimental x).mismatch_handler = e.mismatch_handler ∧
      (e.experimental x).name = e.name) ∧
    (∀ (T C E R M NR : Type) (e : Experiment T C E R M) (s : NR),
      (e.rollout_strategy' s).rollout_strategy = s ∧
      (e.rollout_strategy' s).control_builder = e.control_builder ∧
      (e.rollout_strategy' s).experimental_builder = e.experimental_builder ∧
      (e.rollout_strategy' s).mismatch_handler = e.mismatch_handler ∧
      (e.rollout_strategy' s).name = e.name) ∧
    (∀ (T C E R M NM : Type) (e : Experiment T C E R M) (f : NM),
      (e.on_mismatch f).mismatch_handler = FnTrait.mk f ∧
      (e.on_mismatch f).control_builder = e.control_builder ∧
      (e.on_mismatch f).experimental_builder = e.experimental_builder ∧
      (e.on_mismatch f).rollout_strategy = e.rollout_strategy ∧
      (e.on_mismatch f).name = e.name) :=
  ⟨fun _ _ => ⟨rfl, rfl, rfl, rfl, rfl⟩,
   fun _ _ _ _ _ _ _ _ => ⟨rfl, rfl, rfl, rfl, rfl⟩,
   fun _ _ _ _ _ _ _ _ => ⟨rfl, rfl, rfl, rfl, rfl⟩,
   fun _ _ _ _ _ _ _ _ => ⟨rfl, rfl, rfl, rfl, rfl⟩,
   fun _ _ _ _ _ _ _ _ => ⟨rfl, rfl, rfl, rfl, rfl⟩⟩

/-- C7: the canonical `Percent` strategy built from a percentage `x` in
[0,100] stores `x / 100`; on a fresh draw `r` in [0,1) it returns
`UseExperimentalAndCompare` exactly when `r < x / 100` and `UseControl`
otherwise, never `UseExperimental`; `Percent.new 0` always yields
`UseControl` and `Percent.new 100` always yields
`UseExperimentalAndCompare`. -/
theorem percent_strategy_spec :
    ∀ x : ℚ, 0 ≤ x → x ≤ 100 →
      (Percent.new x).prob = x / 100 ∧
      ∀ r : ℚ, 0 ≤ r → r < 1 →
        (RolloutStrategy.rollout_decision (Percent.new x) r =
          if r < x / 100 then RolloutDecision.UseExperimentalAndCompare
          else RolloutDecision.UseControl) ∧
        RolloutStrategy.rollout_decision (Percent.new x) r ≠
          RolloutDecision.UseExperimental ∧
        (x = 0 →
          RolloutStrategy.rollout_decision (Percent.new x) r =
            RolloutDecision.UseControl) ∧
        (x = 100 →
          RolloutStrategy.rollout_decision (Percent.new x) r =
            RolloutDecision.UseExperimentalAndCompare) := by
  intro x _ _
  refine ⟨rfl, fun r hr0 hr1 => ⟨rfl, ?_, ?_, ?_⟩⟩
  · rw [Percent.rollout_decision_def]
    split <;> simp
  · intro hx
    subst hx
    rw [Percent.rollout_decision_def, if_neg]
    simp only [Percent.new]
    norm_num
    linarith
  · intro hx
    subst hx
    rw [Percent.rollout_decision_def, if_pos]
    simp only [Percent.new]
    norm_num
    linarith

/-- C7 witness: at percentage 50 and draw 1/4, the strategy stores 1/2 and
decides `UseExperimentalAndCompare`. -/
theorem percent_strategy_spec_witness :
    (Percent.new 50).prob = 50 / 100 ∧
    RolloutStrategy.rollout_decision (Percent.new 50) (1 / 4) =
      RolloutDecision.UseExperimentalAndCompare := by
  have h := percent_strategy_spec 50 (by norm_num) (by norm_num)
  have h2 := (h.2 (1 / 4) (by norm_num) (by norm_num)).1
  refine ⟨h.1, ?_⟩
  rw [h2, if_pos (by norm_num)]

/-- C10: `Percent.new` performs no validation or clamping: it stores
`x / 100` for any `x`; for `x ≤ 0` every decision on a draw `r ≥ 0` is
`UseControl`, and for `x ≥ 100` every decision on a draw `r < 1` is
`UseExperimentalAndCompare`. -/
theorem percent_new_no_clamping :
    ∀ x : ℚ, (Percent.new x).prob = x / 100 ∧
      (x ≤ 0 → ∀ r : ℚ, 0 ≤ r →
        RolloutStrategy.rollout_decision (Percent.new x) r =
          RolloutDecision.UseControl) ∧
      (100 ≤ x → ∀ r : ℚ, r < 1 →
        RolloutStrategy.rollout_decision (Percent.new x) r =
          RolloutDecision.UseExperimentalAndCompare) := by
  intro x
  refine ⟨rfl, fun hx r hr => ?_, fun hx r hr => ?_⟩
  · rw [Percent.rollout_decision_def, if_neg]
    simp only [Percent.new]
    intro hcon
    have : x / 100 ≤ 0 := by linarith
    linarith
  · rw [Percent.rollout_decision_def, if_pos]
    simp only [Percent.new]
    have : (1 : ℚ) ≤ x / 100 := by linarith
    linarith

/-- C10 witness: `Percent.new (-5)` stores -1/20 and decides `UseControl`
on draw 1/2; `Percent.new 150` stores 3/2 and decides
`UseExperimentalAndCompare` on draw 99/100. -/
theorem percent_new_no_clamping_witness :
    (Percent.new (-5)).prob = -5 / 100 ∧
    RolloutStrategy.rollout_decision (Percent.new (-5)) (1 / 2) =
      RolloutDecision.UseControl ∧
    RolloutStrategy.rollout_decision (Percent.new 150) (99 / 100) =
      RolloutDecision.UseExperimentalAndCompare :=
  ⟨(percent_new_no_clamping (-5)).1,
   (percent_new_no_clamping (-5)).2.1 (by norm_num) (1 / 2) (by norm_num),
   (percent_new_no_clamping 150).2.2 (by norm_num) (99 / 100) (by norm_num)⟩

/-- C3: under a `UseControl` decision, `run` and `run_result` return the
control computation's output exactly, the observed side effects are the
control's alone (the experimental computation is never evaluated), and the
mismatch handler is never invoked. -/
theorem useControl_exact :
    (∀ (T R M : Type) [DecidableEq T] [RolloutStrategy R] [MismatchHandler M T]
      (e : Experiment T (Fut T) (Fut T) R M) (q : ℚ),
      RolloutStrategy.rollout_decision e.rollout_strategy q =
        RolloutDecision.UseControl →
      e.run q = some
        { result := e.control_builder.value
          signals := [Signal.runTotal e.name, Signal.runVariant e.name "control"]
          effects := e.control_builder.effects
          handlerCalls := [] }) ∧
    (∀ (T Err R M : Type) [DecidableEq T] [RolloutStrategy R]
      [MismatchHandler M (Result T Err)]
      (e : Experiment (Result T Err) (Fut (Result T Err)) (Fut (Result T Err)) R M)
      (q : ℚ),
      RolloutStrategy.rollout_decision e.rollout_strategy q =
        RolloutDecision.UseControl →
      e.run_result q = some
        { result := e.control_builder.value
          signals := [Signal.runTotal e.name, Signal.runVariant e.name "control"]
            ++ outcome e.name "control" e.control_builder.value
          effects := e.control_builder.effects
          handlerCalls := [] }) := by
  constructor
  · intro T R M _ _ _ e q hdec
    unfold Experiment.run
    rw [hdec]
    rfl
  · intro T Err R M _ _ _ e q hdec
    unfold Experiment.run_result
    rw [hdec]
    rfl

/-- Concrete experiment used to witness C3: constant strategy `UseControl`,
control yields `true`, experimental yields `false`. -/
def expControl : Experiment Bool (Fut Bool) (Fut Bool) RolloutDecision AlwaysControl :=
  { control_builder := ⟨true, ["control ran"]⟩
    experimental_builder := ⟨false, ["experimental ran"]⟩
    rollout_strategy := RolloutDecision.UseControl
    mismatch_handler := AlwaysControl.mk
    name := "test" }

/-- Concrete fallible experiment used to witness C3. -/
def expControlR : Experiment (Result Bool String) (Fut (Result Bool String))
    (Fut (Result Bool String)) RolloutDecision AlwaysControl :=
  { control_builder := ⟨Result.Ok true, ["control ran"]⟩
    experimental_builder := ⟨Result.Ok false, ["experimental ran"]⟩
    rollout_strategy := RolloutDecision.UseControl
    mismatch_handler := AlwaysControl.mk
    name := "test" }

/-- C3 witness: on the concrete `UseControl` experiments, `run` returns the
control value `true` with only the control's side effect and no handler
call, and `run_result` returns `Ok true` likewise. -/
theorem useControl_exact_witness :
    expControl.run 0 = some
      { result := true
        signals := [Signal.runTotal "test", Signal.runVariant "test" "control"]
        effects := ["control ran"]
        handlerCalls := [] } ∧
    expControlR.run_result 0 = some
      { result := Result.Ok true
        signals := [Signal.runTotal "test", Signal.runVariant "test" "control",
          Signal.outcomeOk "test" "control"]
        effects := ["control ran"]
        handlerCalls := [] } :=
  ⟨useControl_exact.1 Bool RolloutDecision AlwaysControl expControl 0 rfl,
   useControl_exact.2 Bool String RolloutDecision AlwaysControl expControlR 0 rfl⟩

/-- C4: neither `run` nor `run_result` defines behavior for the declared
`UseExperimental` decision: when the strategy returns it, the dispatch has
no corresponding branch and the execution is undefined (`none` in this
embedding). -/
theorem useExperimental_unhandled :
    (∀ (T R M : Type) [DecidableEq T] [RolloutStrategy R] [MismatchHandler M T]
      (e : Experiment T (Fut T) (Fut T) R M) (q : ℚ),
      RolloutStrategy.rollout_decision e.rollout_strategy q =
        RolloutDecision.UseExperimental →
      e.run q = none) ∧
    (∀ (T Err R M : Type) [DecidableEq T] [RolloutStrategy R]
      [MismatchHandler M (Result T Err)]
      (e : Experiment (Result T Err) (Fut (Result T Err)) (Fut (Result T Err)) R M)
      (q : ℚ),
      RolloutStrategy.rollout_decision e.rollout_strategy q =
        RolloutDecision.UseExperimental →
      e.run_result q = none) := by
  constructor
  · intro T R M _ _ _ e q hdec
    unfold Experiment.run
    rw [hdec]
  · intro T Err R M _ _ _ e q hdec
    unfold Experiment.run_result
    rw [hdec]

/-- Concrete experiment used to witness C4: constant strategy
`UseExperimental`. -/
def expUseExp : Experiment Bool (Fut Bool) (Fut Bool) RolloutDecision AlwaysControl :=
  { control_builder := ⟨true, []⟩
    experimental_builder := ⟨false, []⟩
    rollout_strategy := RolloutDecision.UseExperimental
    mismatch_handler := AlwaysControl.mk
    name := "test" }

/-- Concrete fallible experiment used to witness C4. -/
def expUseExpR : Experiment (Result Bool String) (Fut (Result Bool String))
    (Fut (Result Bool String)) RolloutDecision AlwaysControl :=
  { control_builder := ⟨Result.Ok true, []⟩
    experimental_builder := ⟨Result.Ok false, []⟩
    rollout_strategy := RolloutDecision.UseExperimental
    mismatch_handler := AlwaysControl.mk
    name := "test" }

/-- C4 witness: on the concrete `UseExperimental` experiments, both `run`
and `run_result` are undefined. -/
theorem useExperimental_unhandled_witness :
    expUseExp.run 0 = none ∧ expUseExpR.run_result 0 = none :=
  ⟨useExperimental_unhandled.1 Bool RolloutDecision AlwaysControl expUseExp 0 rfl,
   useExperimental_unhandled.2 Bool String RolloutDecision AlwaysControl expUseExpR 0 rfl⟩

/-- C2: under a `UseExperimentalAndCompare` decision, `run` awaits both
computations; if the two values are equal it returns the common value with
no handler invocation, and if they are unequal it invokes the handler
exactly once on `Mismatch {control, experimental}` holding the true values
and returns exactly the handler's result. -/
theorem run_compare_spec :
    ∀ (T R M : Type) [DecidableEq T] [RolloutStrategy R] [MismatchHandler M T]
      (e : Experiment T (Fut T) (Fut T) R M) (q : ℚ),
      RolloutStrategy.rollout_decision e.rollout_strategy q =
        RolloutDecision.UseExperimentalAndCompare →
      (e.control_builder.value = e.experimental_builder.value →
        e.run q = some
          { result := e.control_builder.value
            signals := [Signal.runTotal e.name,
              Signal.runVariant e.name "experimental_and_compare"]
            effects := e.control_builder.effects ++ e.experimental_builder.effects
            handlerCalls := [] }) ∧
      (e.control_builder.value ≠ e.experimental_builder.value →
        e.run q = some
          { result := MismatchHandler.on_mismatch e.mismatch_handler
              ⟨e.control_builder.value, e.experimental_builder.value⟩
            signals := [Signal.runTotal e.name,
              Signal.runVariant e.name "experimental_and_compare",
              Signal.outcomeMismatch e.name]
            effects := e.control_builder.effects ++ e.experimental_builder.effects
            handlerCalls := [⟨e.control_builder.value, e.experimental_builder.value⟩] }) := by
  intro T R M _ _ _ e q hdec
  constructor
  · intro heq
    unfold Experiment.run
    rw [hdec]
    simp only [heq]
    rw [if_neg (by simp)]
    rfl
  · intro hne
    unfold Experiment.run
    rw [hdec]
    simp only [ne_eq, hne, not_false_eq_true, if_true]
    rfl

/-- Concrete experiment used to witness C2: compare decision, control and
experimental both yield `true`. -/
def expRunEq : Experiment Bool (Fut Bool) (Fut Bool) RolloutDecision
    (FnTrait (Mismatch Bool → Bool)) :=
  { control_builder := ⟨true, ["c"]⟩
    experimental_builder := ⟨true, ["e"]⟩
    rollout_strategy := RolloutDecision.UseExperimentalAndCompare
    mismatch_handler := FnTrait.mk (fun m => m.experimental)
    name := "test" }

/-- Concrete experiment used to witness C2: compare decision, control
yields `true`, experimental yields `false`, handler prefers the
experimental value. -/
def expRunNe : Experiment Bool (Fut Bool) (Fut Bool) RolloutDecision
    (FnTrait (Mismatch Bool → Bool)) :=
  { control_builder := ⟨true, ["c"]⟩
    experimental_builder := ⟨false, ["e"]⟩
    rollout_strategy := RolloutDecision.UseExperimentalAndCompare
    mismatch_handler := FnTrait.mk (fun m => m.experimental)
    name := "test" }

/-- C2 witness: with equal values `run` returns the common value `true`
with no handler call; with unequal values it calls the handler once on
`Mismatch {true, false}` and returns the handler's result `false`. -/
theorem run_compare_spec_witness :
    expRunEq.run 0 = some
      { result := true
        signals := [Signal.runTotal "test",
          Signal.runVariant "test" "experimental_and_compare"]
        effects := ["c", "e"]
        handlerCalls := [] } ∧
    expRunNe.run 0 = some
      { result := false
        signals := [Signal.runTotal "test",
          Signal.runVariant "test" "experimental_and_compare",
          Signal.outcomeMismatch "test"]
        effects := ["c", "e"]
        handlerCalls := [⟨true, false⟩] } :=
  ⟨(run_compare_spec Bool RolloutDecision (FnTrait (Mismatch Bool → Bool))
      expRunEq 0 rfl).1 rfl,
   (run_compare_spec Bool RolloutDecision (FnTrait (Mismatch Bool → Bool))
      expRunNe 0 rfl).2 (by decide)⟩

/-- C1: under a `UseExperimentalAndCompare` decision, `run_result` follows
the §4.5 matrix exactly: equal `Ok`s return the common `Ok` with no handler
call; unequal `Ok`s invoke the handler on `Mismatch {Ok a, Ok b}` and
return its result; control `Ok` with experimental `Err` returns the
control's `Ok` with no handler call; control `Err` with experimental `Ok`
invokes the handler on `Mismatch {Err e, Ok b}` and returns its result;
two `Err`s return the control's `Err` with no handler call. -/
theorem run_result_compare_matrix :
    ∀ (T Err : Type) (R M : Type) [DecidableEq T] [RolloutStrategy R]
      [MismatchHandler M (Result T Err)]
      (e : Experiment (Result T Err) (Fut (Result T Err)) (Fut (Result T Err)) R M)
      (q : ℚ),
      RolloutStrategy.rollout_decision e.rollout_strategy q =
        RolloutDecision.UseExperimentalAndCompare →
      (∀ a b, e.control_builder.value = Result.Ok a →
        e.experimental_builder.value = Result.Ok b → a = b →
        ∃ out, e.run_result q = some out ∧
          out.result = Result.Ok a ∧ out.handlerCalls = []) ∧
      (∀ a b, e.control_builder.value = Result.Ok a →
        e.experimental_builder.value = Result.Ok b → a ≠ b →
        ∃ out, e.run_result q = some out ∧
          out.result = MismatchHandler.on_mismatch e.mismatch_handler
            ⟨Result.Ok a, Result.Ok b⟩ ∧
          out.handlerCalls = [⟨Result.Ok a, Result.Ok b⟩]) ∧
      (∀ a f, e.control_builder.value = Result.Ok a →
        e.experimental_builder.value = Result.Err f →
        ∃ out, e.run_result q = some out ∧
          out.result = Result.Ok a ∧ out.handlerCalls = []) ∧
      (∀ g b, e.control_builder.value = Result.Err g →
        e.experimental_builder.value = Result.Ok b →
        ∃ out, e.run_result q = some out ∧
          out.result = MismatchHandler.on_mismatch e.mismatch_handler
            ⟨Result.Err g, Result.Ok b⟩ ∧
          out.handlerCalls = [⟨Result.Err g, Result.Ok b⟩]) ∧
      (∀ g f, e.control_builder.value = Result.Err g →
        e.experimental_builder.value = Result.Err f →
        ∃ out, e.run_result q = some out ∧
          out.result = Result.Err g ∧ out.handlerCalls = []) := by
  intro T Err R M _ _ _ e q hdec
  refine ⟨fun a b hc he hab => ?_, fun a b hc he hab => ?_,
    fun a f hc he => ?_, fun g b hc he => ?_, fun g f hc he => ?_⟩
  all_goals unfold Experiment.run_result
  all_goals rw [hdec]
  all_goals simp only [hc, he]
  · subst hab
    rw [if_neg (by simp)]
    exact ⟨_, rfl, rfl, rfl⟩
  · rw [if_pos hab]
    exact ⟨_, rfl, rfl, rfl⟩
  · exact ⟨_, rfl, rfl, rfl⟩
  · exact ⟨_, rfl, rfl, rfl⟩
  · exact ⟨_, rfl, rfl, rfl⟩

/-- Concrete experiment used to witness C1: compare decision, control errs
with "x", experimental yields `Ok true`, handler prefers the experimental
side. -/
def expMatrix : Experiment (Result Bool String) (Fut (Result Bool String))
    (Fut (Result Bool String)) RolloutDecision
    (FnTrait (Mismatch (Result Bool String) → Result Bool String)) :=
  { control_builder := ⟨Result.Err "x", []⟩
    experimental_builder := ⟨Result.Ok true, []⟩
    rollout_strategy := RolloutDecision.UseExperimentalAndCompare
    mismatch_handler := FnTrait.mk (fun m => m.experimental)
    name := "test" }

/-- C1 witness: on the `Err "x"` / `Ok true` row, `run_result` calls the
handler on `Mismatch {Err "x", Ok true}` and returns its result `Ok true`. -/
theorem run_result_compare_matrix_witness :
    (expMatrix.run_result 0).map
        (fun o => (o.result, o.handlerCalls)) =
      some (Result.Ok true,
        [(⟨Result.Err "x", Result.Ok true⟩ : Mismatch (Result Bool String))]) := by
  obtain ⟨out, hrun, hres, hcalls⟩ :=
    (run_result_compare_matrix Bool String RolloutDecision
      (FnTrait (Mismatch (Result Bool String) → Result Bool String))
      expMatrix 0 rfl).2.2.2.1 "x" true rfl rfl
  rw [hrun, Option.map_some', hres, hcalls]
  rfl

/-- C5: in any single execution of `run` or `run_result` the mismatch
handler is invoked at most once, and only when the decision is
`UseExperimentalAndCompare` and the outcomes genuinely disagree: for `run`,
unequal values; for `run_result`, two unequal `Ok`s or a control `Err`
opposite an experimental `Ok` — never when only the experimental branch
fails or both branches fail. -/
theorem handler_at_most_once :
    (∀ (T R M : Type) [DecidableEq T] [RolloutStrategy R] [MismatchHandler M T]
      (e : Experiment T (Fut T) (Fut T) R M) (q : ℚ) (out : RunOutput T),
      e.run q = some out →
      out.handlerCalls.length ≤ 1 ∧
      (out.handlerCalls ≠ [] →
        RolloutStrategy.rollout_decision e.rollout_strategy q =
          RolloutDecision.UseExperimentalAndCompare ∧
        e.control_builder.value ≠ e.experimental_builder.value)) ∧
    (∀ (T Err : Type) (R M : Type) [DecidableEq T] [RolloutStrategy R]
      [MismatchHandler M (Result T Err)]
      (e : Experiment (Result T Err) (Fut (Result T Err)) (Fut (Result T Err)) R M)
      (q : ℚ) (out : RunOutput (Result T Err)),
      e.run_result q = some out →
      out.handlerCalls.length ≤ 1 ∧
      (out.handlerCalls ≠ [] →
        RolloutStrategy.rollout_decision e.rollout_strategy q =
          RolloutDecision.UseExperimentalAndCompare ∧
        ((∃ a b, e.control_builder.value = Result.Ok a ∧
            e.experimental_builder.value = Result.Ok b ∧ a ≠ b) ∨
         (∃ g b, e.control_builder.value = Result.Err g ∧
            e.experimental_builder.value = Result.Ok b)))) := by
  constructor
  · intro T R M _ _ _ e q out h
    simp only [Experiment.run] at h
    split at h
    · rename_i hdec
      injection h with h
      subst h
      simp
    · rename_i hdec
      split at h
      · rename_i hne
        injection h with h
        subst h
        simp only [List.length_singleton, le_refl, ne_eq, true_and]
        intro _
        exact ⟨hdec, hne⟩
      · injection h with h
        subst h
        simp
    · exact absurd h (by simp)
  · intro T Err R M _ _ _ e q out h
    simp only [Experiment.run_result] at h
    split at h
    · rename_i hdec
      injection h with h
      subst h
      simp
    · rename_i hdec
      split at h
      · rename_i c ex hc he
        split at h
        · rename_i hne
          injection h with h
          subst h
          refine ⟨by simp, fun _ => ⟨hdec, Or.inl ⟨c, ex, hc, he, hne⟩⟩⟩
        · injection h with h
          subst h
          simp
      · injection h with h
        subst h
        simp
      · rename_i c ex hc he
        injection h with h
        subst h
        refine ⟨by simp, fun _ => ⟨hdec, Or.inr ⟨c, ex, hc, he⟩⟩⟩
      · injection h with h
        subst h
        simp
    · exact absurd h (by simp)

/-- Concrete experiment used to witness C5: compare decision, control errs,
experimental succeeds, so the handler runs exactly once. -/
def expOnce : Experiment (Result Bool String) (Fut (Result Bool String))
    (Fut (Result Bool String)) RolloutDecision
    (FnTrait (Mismatch (Result Bool String) → Result Bool String)) :=
  { control_builder := ⟨Result.Err "x", []⟩
    experimental_builder := ⟨Result.Ok true, []⟩
    rollout_strategy := RolloutDecision.UseExperimentalAndCompare
    mismatch_handler := FnTrait.mk (fun m => m.experimental)
    name := "test" }

/-- The output of the C5 witness execution. -/
def outOnce : RunOutput (Result Bool String) :=
  { result := Result.Ok true
    signals := [Signal.runTotal "test",
      Signal.runVariant "test" "experimental_and_compare",
      Signal.outcomeError "test" "control",
      Signal.outcomeOk "test" "experimental",
      Signal.outcomeMismatch "test"]
    effects := []
    handlerCalls := [⟨Result.Err "x", Result.Ok true⟩] }

/-- C5 witness: the concrete `Err`/`Ok` execution invokes the handler
exactly once, under a compare decision with a genuine disagreement. -/
theorem handler_at_most_once_witness :
    outOnce.handlerCalls.length ≤ 1 ∧
    RolloutStrategy.rollout_decision expOnce.rollout_strategy 0 =
      RolloutDecision.UseExperimentalAndCompare ∧
    ((∃ a b, expOnce.control_builder.value = Result.Ok a ∧
        expOnce.experimental_builder.value = Result.Ok b ∧ a ≠ b) ∨
     (∃ g b, expOnce.control_builder.value = Result.Err g ∧
        expOnce.experimental_builder.value = Result.Ok b)) := by
  obtain ⟨h1, h2⟩ :=
    (handler_at_most_once.2 Bool String RolloutDecision
      (FnTrait (Mismatch (Result Bool String) → Result Bool String))
      expOnce 0 outOnce (by rfl))
  exact ⟨h1, h2 (by decide)⟩

/-- Concrete experiment refuting C6 as stated: compare decision with both
branches erring. -/
def expErrErr : Experiment (Result Bool String) (Fut (Result Bool String))
    (Fut (Result Bool String)) RolloutDecision AlwaysControl :=
  { control_builder := ⟨Result.Err "cfail", []⟩
    experimental_builder := ⟨Result.Err "efail", []⟩
    rollout_strategy := RolloutDecision.UseExperimentalAndCompare
    mismatch_handler := AlwaysControl.mk
    name := "test" }

/-- C6 counterexample: on the divergent `Err`/`Err` row under
`UseExperimentalAndCompare`, `run_result` emits the per-branch error
signals but no "mismatch" signal, contrary to the claim that all four
divergent rows emit one. -/
theorem run_result_errErr_no_mismatch_signal :
    expErrErr.run_result 0 = some
      { result := Result.Err "cfail"
        signals := [Signal.runTotal "test",
          Signal.runVariant "test" "experimental_and_compare",
          Signal.outcomeError "test" "control",
          Signal.outcomeError "test" "experimental"]
        effects := []
        handlerCalls := [] } ∧
    Signal.outcomeMismatch "test" ∉
      [Signal.runTotal "test",
        Signal.runVariant "test" "experimental_and_compare",
        Signal.outcomeError "test" "control",
        Signal.outcomeError "test" "experimental"] :=
  ⟨rfl, by decide⟩

/-- C6 (amended): under `UseExperimentalAndCompare`, `run_result` emits the
"mismatch" signal exactly on the three divergent rows Ok/Ok-unequal,
Ok/Err and Err/Ok — not on Err/Err — and emits a per-branch ok/error
outcome signal for every row. -/
theorem run_result_mismatch_signal_rows :
    ∀ (T Err : Type) (R M : Type) [DecidableEq T] [RolloutStrategy R]
      [MismatchHandler M (Result T Err)]
      (e : Experiment (Result T Err) (Fut (Result T Err)) (Fut (Result T Err)) R M)
      (q : ℚ) (out : RunOutput (Result T Err)),
      RolloutStrategy.rollout_decision e.rollout_strategy q =
        RolloutDecision.UseExperimentalAndCompare →
      e.run_result q = some out →
      (Signal.outcomeMismatch e.name ∈ out.signals ↔
        ((∃ a b, e.control_builder.value = Result.Ok a ∧
            e.experimental_builder.value = Result.Ok b ∧ a ≠ b) ∨
         (∃ a f, e.control_builder.value = Result.Ok a ∧
            e.experimental_builder.value = Result.Err f) ∨
         (∃ g b, e.control_builder.value = Result.Err g ∧
            e.experimental_builder.value = Result.Ok b))) ∧
      (∀ a, e.control_builder.value = Result.Ok a →
        Signal.outcomeOk e.name "control" ∈ out.signals) ∧
      (∀ g, e.control_builder.value = Result.Err g →
        Signal.outcomeError e.name "control" ∈ out.signals) ∧
      (∀ b, e.experimental_builder.value = Result.Ok b →
        Signal.outcomeOk e.name "experimental" ∈ out.signals) ∧
      (∀ f, e.experimental_builder.value = Result.Err f →
        Signal.outcomeError e.name "experimental" ∈ out.signals) := by
  intro T Err R M _ _ _ e q out hdec h
  simp only [Experiment.run_result] at h
  rw [hdec] at h
  split at h
  · rename_i he
    simp at he
  · split at h
    · rename_i c ex hc he
      split at h
      · rename_i hne
        injection h with h
        subst h
        simp [outcome, outcome_ok, outcome_error, outcome_mismatch, hc, he, hne]
      · rename_i heq
        have hce := not_ne_iff.mp heq
        subst hce
        injection h with h
        subst h
        simp [outcome, outcome_ok, outcome_error, outcome_mismatch, hc, he]
    · rename_i c f hc he
      injection h with h
      subst h
      simp [outcome, outcome_ok, outcome_error, outcome_mismatch, hc, he]
    · rename_i g ex hc he
      injection h with h
      subst h
      simp [outcome, outcome_ok, outcome_error, outcome_mismatch, hc, he]
    · rename_i g f hc he
      injection h with h
      subst h
      simp [outcome, outcome_ok, outcome_error, outcome_mismatch, hc, he]
  · exact absurd h (by simp)

/-- Concrete experiment used to witness the amended C6: compare decision,
control `Ok true`, experimental errs. -/
def expOkErr : Experiment (Result Bool String) (Fut (Result Bool String))
    (Fut (Result Bool String)) RolloutDecision AlwaysControl :=
  { control_builder := ⟨Result.Ok true, []⟩
    experimental_builder := ⟨Result.Err "efail", []⟩
    rollout_strategy := RolloutDecision.UseExperimentalAndCompare
    mismatch_handler := AlwaysControl.mk
    name := "test" }

/-- The output of the amended-C6 witness execution. -/
def outOkErr : RunOutput (Result Bool String) :=
  { result := Result.Ok true
    signals := [Signal.runTotal "test",
      Signal.runVariant "test" "experimental_and_compare",
      Signal.outcomeOk "test" "control",
      Signal.outcomeError "test" "experimental",
      Signal.outcomeMismatch "test"]
    effects := []
    handlerCalls := [] }

/-- Amended-C6 witness: the concrete `Ok`/`Err` execution emits the
per-branch ok/error signals and the "mismatch" signal. -/
theorem run_result_mismatch_signal_rows_witness :
    Signal.outcomeMismatch "test" ∈ outOkErr.signals ∧
    Signal.outcomeOk "test" "control" ∈ outOkErr.signals ∧
    Signal.outcomeError "test" "experimental" ∈ outOkErr.signals := by
  obtain ⟨hiff, hok, _, _, herr⟩ :=
    run_result_mismatch_signal_rows Bool String RolloutDecision AlwaysControl
      expOkErr 0 outOkErr rfl (by rfl)
  exact ⟨hiff.mpr (Or.inr (Or.inl ⟨true, "efail", rfl, rfl⟩)),
    hok true rfl, herr "efail" rfl⟩

end Thesis
